import Mathlib

/-!
Verification of the dify-slack-bot conversation-relay core.

Shallow embedding of the repository's Python source into Lean 4:
* `src/utils.py`   — `ConversationCache` (`_key`, `get`, `set`, `clear_expired`),
  `build_error_message`, `truncate_text`;
* `src/bot.py`     — `_process_message` (streaming orchestration, per-file
  relay loop, `update_callback`), `_get_file_type`;
* `src/dify_client.py` — `_handle_streaming_response`,
  `_get_file_type_from_filename`.

Python dictionaries are embedded as functions `String → Option _`; wall-clock
time (`time.time()`) is passed explicitly as an integer-valued parameter (all
comparisons the claims depend on are at whole-second granularity); exceptions
become explicit outcome values; Slack/Dify network calls become recorded
action values.
-/

namespace DifySlackBot

/-! ## Session cache (src/utils.py, class ConversationCache) -/

/-- One cache entry: `{'conversation_id': ..., 'timestamp': ...}`
(src/utils.py lines 69-72). -/
structure CacheEntry where
  conversation_id : String
  timestamp : Int
  deriving DecidableEq, Repr

/-- The in-memory dict `self._cache` of `ConversationCache`, embedded as a
partial map from key strings to entries. -/
def CacheMap : Type := String → Option CacheEntry

/-- `ConversationCache` state: the dict plus the configured TTL
(src/utils.py lines 42-44). -/
structure ConversationCache where
  cache : CacheMap
  ttl : Int

/-- `ConversationCache._key` (src/utils.py lines 46-50): `"u:c:t"` when the
thread marker is truthy (present and nonempty, Python `if thread_ts:`),
otherwise `"u:c"`. -/
def ConversationCache.key (user_id channel_id : String) (thread_ts : Option String) : String :=
  match thread_ts with
  | some t => if t = "" then user_id ++ ":" ++ channel_id
              else user_id ++ ":" ++ channel_id ++ ":" ++ t
  | none => user_id ++ ":" ++ channel_id

/-- `ConversationCache.get` (src/utils.py lines 52-64). Returns the cached
conversation id (or `none`) together with the cache state after the call:
an entry found expired (`now - timestamp > ttl`) is deleted. -/
def ConversationCache.get (c : ConversationCache) (now : Int)
    (user_id channel_id : String) (thread_ts : Option String) :
    Option String × ConversationCache :=
  match c.cache (ConversationCache.key user_id channel_id thread_ts) with
  | some entry =>
      if now - entry.timestamp > c.ttl then
        (none, { c with cache := fun k =>
            if k = ConversationCache.key user_id channel_id thread_ts then none
            else c.cache k })
      else
        (some entry.conversation_id, c)
  | none => (none, c)

/-- `ConversationCache.set` (src/utils.py lines 66-72): overwrite the entry
under the key with the new conversation id, stamped `now`. -/
def ConversationCache.set (c : ConversationCache) (now : Int)
    (user_id channel_id conversation_id : String) (thread_ts : Option String) :
    ConversationCache :=
  { c with cache := fun k =>
      if k = ConversationCache.key user_id channel_id thread_ts then
        some ⟨conversation_id, now⟩
      else c.cache k }

/-! ## Renderer truncation (src/utils.py, truncate_text) -/

/-- The default `max_length` of `truncate_text` (src/utils.py line 151). -/
def truncateCap : Nat := 3000

/-- `truncate_text` (src/utils.py lines 151-156): text of length at most the
cap is returned unchanged, longer text becomes `text[:cap-3] + "..."`. -/
def truncate_text (text : String) : String :=
  if text.length ≤ truncateCap then text
  else ⟨text.data.take (truncateCap - 3)⟩ ++ "..."

/-! ## Error-message templates (src/utils.py, build_error_message) -/

/-- Template `error_messages['connection']` (src/utils.py line 130). -/
def msgConnection : String :=
  "I'm having trouble connecting to the AI service. Please try again later."

/-- Template `error_messages['timeout']` (src/utils.py line 131). -/
def msgTimeout : String :=
  "The request took too long to process. Please try again with a simpler question."

/-- Template `error_messages['rate_limit']` (src/utils.py line 132). -/
def msgRateLimit : String :=
  "I'm receiving too many requests right now. Please wait a moment and try again."

/-- Template `error_messages['invalid_input']` (src/utils.py line 133). -/
def msgInvalidInput : String :=
  "I couldn't understand that input. Please try rephrasing your question."

/-- Template `error_messages['server_error']` (src/utils.py line 134). -/
def msgServerError : String :=
  "Something went wrong on my end. Please try again later."

/-- Substring test, embedding Python's `in` on strings. -/
def strContains (haystack needle : String) : Bool :=
  decide (needle.data <:+: haystack.data)

/-- Python `str.lower()`, embedded characterwise. -/
def strLower (s : String) : String := ⟨s.data.map Char.toLower⟩

/-- Python `str.startswith(p)`, embedded over the character lists. -/
def strStartsWith (s p : String) : Bool := p.data.isPrefixOf s.data

/-- `build_error_message` (src/utils.py lines 127-148), taking `str(error)`
as input: lowercase the error text and pick a template by substring match. -/
def build_error_message (error : String) : String :=
  let e := strLower error
  if strContains e "connection" || strContains e "network" then msgConnection
  else if strContains e "timeout" then msgTimeout
  else if strContains e "rate" && strContains e "limit" then msgRateLimit
  else if strContains e "400" || strContains e "bad request" then msgInvalidInput
  else msgServerError

/-! ## Streaming coordinator
(src/bot.py lines 182-220 `update_callback`, src/dify_client.py lines
106-159 `_handle_streaming_response`) -/

/-- The throttle interval `update_interval = 1.0` (src/bot.py line 188). -/
def updateInterval : Int := 1

/-- One `client.chat_update` call on the placeholder message: the wall-clock
time at which it was issued, the text sent, and whether it came from the
`is_final` branch of `update_callback`. -/
structure SlackUpdate where
  time : Int
  text : String
  final : Bool
  deriving DecidableEq, Repr

/-- The mutable state captured by `update_callback` (src/bot.py lines
187-212): `last_update_time` plus the trace of `chat_update` calls issued
so far. -/
structure CallbackState where
  lastUpdateTime : Int
  updates : List SlackUpdate
  deriving DecidableEq, Repr

/-- `update_callback(text, is_final)` (src/bot.py lines 191-212) invoked at
wall-clock time `now`: the final update is always emitted with
`truncate_text text`; an intermediate update is emitted with a trailing
`" ⏳"` only when `now - last_update_time >= update_interval`, refreshing
`last_update_time`. -/
def update_callback (now : Int) (text : String) (is_final : Bool)
    (s : CallbackState) : CallbackState :=
  if is_final then
    { s with updates := s.updates ++ [⟨now, truncate_text text, true⟩] }
  else if updateInterval ≤ now - s.lastUpdateTime then
    { lastUpdateTime := now,
      updates := s.updates ++ [⟨now, truncate_text text ++ " ⏳", false⟩] }
  else s

/-- A parsed server-sent event from the Dify stream, as dispatched on
`parsed_data.get('event')` in `_handle_streaming_response`
(src/dify_client.py lines 132-152). Events other than `message` and
`message_end` are ignored by the loop. -/
inductive SSEEvent where
  | message (answer : String)
  | messageEnd
  | other
  deriving DecidableEq, Repr

/-- Result of `_handle_streaming_response`: the accumulated `full_answer`
and the callback state (trace of placeholder updates). -/
structure StreamResult where
  fullAnswer : String
  callback : CallbackState
  deriving DecidableEq, Repr

/-- The event loop of `_handle_streaming_response` (src/dify_client.py
lines 126-152), with each event tagged by the wall-clock time at which it
is processed: `message` events append their chunk to `full_answer` and call
the callback with `is_final=False`; `message_end` calls the callback with
`is_final=True` and breaks out of the loop. -/
def handleStream : List (Int × SSEEvent) → String → CallbackState → StreamResult
  | [], acc, cs => ⟨acc, cs⟩
  | (t, .message chunk) :: rest, acc, cs =>
      handleStream rest (acc ++ chunk) (update_callback t (acc ++ chunk) false cs)
  | (_, .other) :: rest, acc, cs => handleStream rest acc cs
  | (t, .messageEnd) :: _, acc, cs =>
      ⟨acc, update_callback t acc true cs⟩

/-- The callback state at the start of a streaming turn:
`last_update_time = 0` (src/bot.py line 187) and no updates issued. -/
def initCallbackState : CallbackState := ⟨0, []⟩

/-! ## File category inference
(src/dify_client.py lines 286-333 `_get_file_type_from_filename`,
src/bot.py lines 281-297 `_get_file_type`) -/

/-- The characters after the last `'.'` of a list (the whole list when no
dot occurs): the last component of Python's `split('.')`. -/
def afterLastDot (l : List Char) : List Char :=
  l.foldl (fun acc c => if c = '.' then [] else acc ++ [c]) []

/-- The extension after the last `.` of the lowercased filename:
`filename.lower().split('.')[-1]` (src/dify_client.py line 317). -/
def lastExt (filename : String) : String :=
  ⟨afterLastDot (strLower filename).data⟩

/-- Models the Python stdlib call `mimetypes.guess_type(filename)`
(src/dify_client.py line 289): look the lowercased extension after the last
dot up in the standard type table (restricted here to the extensions the
repository's own inference tables mention; every other extension maps to
`None`, and a filename without a dot has no extension). -/
def guessType (filename : String) : Option String :=
  if ¬ filename.data.contains '.' then none
  else
    match lastExt filename with
    | "png" => some "image/png"
    | "jpg" => some "image/jpeg"
    | "jpeg" => some "image/jpeg"
    | "gif" => some "image/gif"
    | "webp" => some "image/webp"
    | "svg" => some "image/svg+xml"
    | "pdf" => some "application/pdf"
    | "txt" => some "text/plain"
    | "html" => some "text/html"
    | "csv" => some "text/csv"
    | "xml" => some "text/xml"
    | "xls" => some "application/vnd.ms-excel"
    | "xlsx" => some "application/vnd.openxmlformats-officedocument.spreadsheetml.sheet"
    | "doc" => some "application/msword"
    | "docx" => some "application/vnd.openxmlformats-officedocument.wordprocessingml.document"
    | "ppt" => some "application/vnd.ms-powerpoint"
    | "pptx" => some "application/vnd.openxmlformats-officedocument.presentationml.presentation"
    | "mp3" => some "audio/mpeg"
    | "wav" => some "audio/x-wav"
    | "m4a" => some "audio/mp4"
    | "mp4" => some "video/mp4"
    | "mov" => some "video/quicktime"
    | "mpeg" => some "video/mpeg"
    | "webm" => some "video/webm"
    | "eml" => some "message/rfc822"
    | "epub" => some "application/epub+zip"
    | _ => none

/-- The MIME types `_get_file_type_from_filename` classifies as `document`
(src/dify_client.py lines 298-306). -/
def documentMimes : List String :=
  ["text/plain", "text/markdown", "application/pdf",
   "text/html", "application/vnd.ms-excel",
   "application/vnd.openxmlformats-officedocument.spreadsheetml.sheet",
   "application/msword",
   "application/vnd.openxmlformats-officedocument.wordprocessingml.document",
   "text/csv", "application/xml", "application/epub+zip",
   "application/vnd.ms-powerpoint",
   "application/vnd.openxmlformats-officedocument.presentationml.presentation",
   "message/rfc822", "application/vnd.ms-outlook"]

/-- The extension fallback of `_get_file_type_from_filename`
(src/dify_client.py lines 316-333). -/
def extFallbackType (filename : String) : String :=
  let ext := lastExt filename
  if ["png", "jpg", "jpeg", "gif", "webp", "svg"].contains ext then "image"
  else if ["mp3", "m4a", "wav", "webm", "amr"].contains ext then "audio"
  else if ["mp4", "mov", "mpeg", "mpga"].contains ext then "video"
  else if ["txt", "md", "markdown", "pdf", "html", "xlsx", "xls", "docx", "csv",
           "eml", "msg", "pptx", "ppt", "xml", "epub"].contains ext then "document"
  else "custom"

/-- `DifyClient._get_file_type_from_filename` (src/dify_client.py lines
286-333): classify by guessed MIME type first; when the guess is absent or
matches no MIME rule, fall through to the extension table. -/
def getFileTypeFromFilename (filename : String) : String :=
  match guessType filename with
  | some ct =>
      if strStartsWith ct "image/" then "image"
      else if documentMimes.contains ct then "document"
      else if strStartsWith ct "audio/" then "audio"
      else if strStartsWith ct "video/" then "video"
      else extFallbackType filename
  | none => extFallbackType filename

/-- `SlackBot._get_file_type` (src/bot.py lines 281-297): map a declared
MIME type to a Dify file type. -/
def getFileTypeFromMime (mimetype : String) : String :=
  if strStartsWith mimetype "image/" then "image"
  else if ["text/plain", "text/markdown", "application/pdf",
           "text/html", "application/vnd.ms-excel",
           "application/vnd.openxmlformats-officedocument.spreadsheetml.sheet",
           "application/msword",
           "application/vnd.openxmlformats-officedocument.wordprocessingml.document",
           "text/csv", "application/xml", "application/epub+zip"].contains mimetype
    then "document"
  else if strStartsWith mimetype "audio/" then "audio"
  else if strStartsWith mimetype "video/" then "video"
  else "custom"

/-! ## File relay: the per-file loop of `_process_message`
(src/bot.py lines 124-169) -/

/-- One attachment descriptor, as extracted by `get_file_info_from_event`
(src/utils.py lines 159-174). -/
structure FileInfo where
  name : String
  mimetype : String
  url_private : String
  size : Nat
  deriving DecidableEq, Repr

/-- A network call issued while relaying one file: the Slack download
(`_download_slack_file`, src/bot.py line 137) or the Dify upload
(`dify.upload_file`, src/bot.py lines 140-144). -/
inductive NetCall where
  | downloadSlack (url : String)
  | uploadDify (filename : String)
  deriving DecidableEq, Repr

/-- What `dify.upload_file` answered, as read by the loop:
`upload_response.get('id')` and `upload_response.get('type')`
(src/bot.py lines 147-149). -/
structure UploadResponse where
  id : Option String
  rtype : Option String
  deriving DecidableEq, Repr

/-- How the loop body disposed of one file. -/
inductive FileOutcome where
  /-- MIME type failed `_is_supported_file_type`: name recorded in
  `unsupported_files`, `continue` (src/bot.py lines 127-130). -/
  | unsupported
  /-- `size > Config.MAX_FILE_SIZE`: logged, `continue`
  (src/bot.py lines 133-135). -/
  | tooLarge
  /-- `_download_slack_file` returned `None`: nothing appended
  (src/bot.py lines 137-138). -/
  | downloadFailed
  /-- upload succeeded with a file id: a `local_file` entry with this Dify
  file type and upload id appended to `files` (src/bot.py lines 147-160). -/
  | uploaded (ftype : String) (upload_file_id : String)
  /-- upload response carried no `id` (src/bot.py lines 161-163). -/
  | noId
  deriving DecidableEq, Repr

/-- `SlackBot._is_supported_file_type` (src/bot.py lines 299-303) with the
configured allow-list passed explicitly (already stripped and lowercased,
as the list comprehension there does). -/
def isSupportedFileType (supported : List String) (mimetype : String) : Bool :=
  supported.contains (strLower mimetype)

/-- The body of the per-file loop of `_process_message` (src/bot.py lines
124-169) for one file, with the download result and the upload response
supplied as oracles for the two network calls; returns the file's outcome
together with the network calls the body issued. -/
def processFile (supported : List String) (maxFileSize : Nat)
    (downloadOk : Bool) (resp : UploadResponse) (f : FileInfo) :
    FileOutcome × List NetCall :=
  if ¬ isSupportedFileType supported f.mimetype then (.unsupported, [])
  else if f.size > maxFileSize then (.tooLarge, [])
  else if downloadOk then
    match resp.id with
    | some fid =>
        (.uploaded (resp.rtype.getD (getFileTypeFromMime f.mimetype)) fid,
         [.downloadSlack f.url_private, .uploadDify f.name])
    | none => (.noId, [.downloadSlack f.url_private, .uploadDify f.name])
  else (.downloadFailed, [.downloadSlack f.url_private])

/-- The default `Config.SUPPORTED_FILE_TYPES` allow-list
(src/config.py lines 36-43), lowercased entries. -/
def defaultSupportedTypes : List String :=
  ["image/jpeg", "image/jpg", "image/png", "image/gif", "image/webp",
   "text/plain", "text/markdown", "application/pdf", "text/html", "text/csv",
   "application/xml",
   "application/vnd.ms-excel",
   "application/vnd.openxmlformats-officedocument.spreadsheetml.sheet",
   "application/msword",
   "application/vnd.openxmlformats-officedocument.wordprocessingml.document",
   "application/epub+zip", "audio/mpeg", "audio/wav", "audio/ogg", "audio/mp3",
   "video/mp4", "video/avi", "video/mov", "video/wmv"]

/-- The default `Config.MAX_FILE_SIZE` = 15 MB in bytes
(src/config.py line 30). -/
def defaultMaxFileSize : Nat := 15 * 1024 * 1024

/-! ## Message orchestrator, streaming turn
(src/bot.py `_process_message`, lines 89-263) -/

/-- The fields of the inbound Slack event that `_process_message` reads;
`text` stands for `extract_text_from_event(event)` (src/bot.py line 95). -/
structure SlackEvent where
  user : String
  channel : String
  ts : String
  thread_ts : Option String
  text : String
  deriving DecidableEq, Repr

/-- `thread_ts = event.get('thread_ts') or event.get('ts')` (src/bot.py
line 94): Python `or` falls through on a missing or empty marker. -/
def resolveThread (ev : SlackEvent) : String :=
  match ev.thread_ts with
  | some t => if t = "" then ev.ts else t
  | none => ev.ts

/-- A call the orchestrator makes against the Slack API during one turn. -/
inductive SlackAction where
  /-- `say(text, thread_ts=thread)` — posts a new message in the thread. -/
  | say (text : String) (thread : String)
  /-- `client.chat_update(channel, ts, text)` — edits the message `ts`. -/
  | chatUpdate (ts : String) (text : String)
  /-- `client.chat_postEphemeral(...)` (blocking mode only). -/
  | chatPostEphemeral (text : String)
  deriving DecidableEq, Repr

/-- How the Dify call of a streaming turn went: either the stream completed,
or an exception carrying `str(e)` was raised after the callback had handled
a prefix of the stream events. -/
inductive DifyStreamOutcome where
  | ok (stream : List (Int × SSEEvent))
  | error (errText : String) (processed : List (Int × SSEEvent))
  deriving DecidableEq, Repr

/-- The Slack-call trace of one streaming-mode turn of `_process_message`
(src/bot.py lines 89-263) for an event without attachments: the empty-text
guard (lines 97-99), the placeholder post (line 184, whose Slack timestamp
is `placeholderTs`), the throttled `chat_update`s driven through
`update_callback` by `_handle_streaming_response`, and — on an exception —
the `except` branch (lines 257-263), which posts `build_error_message(e)`
into the thread with `say`. -/
def processMessageStreaming (ev : SlackEvent) (placeholderTs : String)
    (dify : DifyStreamOutcome) : List SlackAction :=
  let thread := resolveThread ev
  if ev.text = "" then
    [.say "I need some text or files to work with!" thread]
  else
    match dify with
    | .ok stream =>
        let r := handleStream stream "" initCallbackState
        .say "🤔 Thinking..." thread ::
          r.callback.updates.map (fun u => .chatUpdate placeholderTs u.text)
    | .error errText processed =>
        let r := handleStream processed "" initCallbackState
        (.say "🤔 Thinking..." thread ::
          r.callback.updates.map (fun u => .chatUpdate placeholderTs u.text))
          ++ [.say (build_error_message errText) thread]

/-- How the Dify call of a blocking turn went; on success `rendered` stands
for the `format_dify_response` output for the returned response dict
(src/bot.py line 237). -/
inductive DifyBlockingOutcome where
  | ok (rendered : String)
  | error (errText : String)
  deriving DecidableEq, Repr

/-- The Slack-call trace of one blocking-mode turn of `_process_message`
(src/bot.py lines 89-263) for an event without attachments and with no
suggested questions: the empty-text guard, the ephemeral typing notice
(lines 102-107), and either the rendered reply (lines 236-241) or the
`except` branch's error reply (lines 257-263). -/
def processMessageBlocking (ev : SlackEvent) (dify : DifyBlockingOutcome) :
    List SlackAction :=
  let thread := resolveThread ev
  if ev.text = "" then
    [.say "I need some text or files to work with!" thread]
  else
    match dify with
    | .ok rendered =>
        [.chatPostEphemeral "Thinking... 🤔", .say (truncate_text rendered) thread]
    | .error errText =>
        [.chatPostEphemeral "Thinking... 🤔", .say (build_error_message errText) thread]

/-! ## Theorems -/

/-- Helper: `set` writes the new entry, stamped `now`, under its key. -/
theorem set_cache_at_key (c : ConversationCache) (now : Int)
    (u ch conv : String) (th : Option String) :
    (c.set now u ch conv th).cache (ConversationCache.key u ch th)
      = some ⟨conv, now⟩ := by
  unfold ConversationCache.set
  simp

/-- Helper: `set` leaves every other key alone. -/
theorem set_cache_other_key (c : ConversationCache) (now : Int)
    (u ch conv : String) (th : Option String) (k : String)
    (hk : k ≠ ConversationCache.key u ch th) :
    (c.set now u ch conv th).cache k = c.cache k := by
  unfold ConversationCache.set
  simp [hk]

/-- Helper: `set` does not change the TTL. -/
theorem set_ttl (c : ConversationCache) (now : Int)
    (u ch conv : String) (th : Option String) :
    (c.set now u ch conv th).ttl = c.ttl := rfl

/-- Helper: the value a `get` returns when the key holds a known entry. -/
theorem get_fst_of_found (c : ConversationCache) (now : Int)
    (u ch : String) (th : Option String) (e : CacheEntry)
    (he : c.cache (ConversationCache.key u ch th) = some e) :
    (c.get now u ch th).1 =
      if now - e.timestamp > c.ttl then none else some e.conversation_id := by
  unfold ConversationCache.get
  rw [he]
  by_cases hx : now - e.timestamp > c.ttl <;> simp [hx]

/-- Helper: the cache state after a `get` that found a known entry. -/
theorem get_snd_of_found (c : ConversationCache) (now : Int)
    (u ch : String) (th : Option String) (e : CacheEntry)
    (he : c.cache (ConversationCache.key u ch th) = some e) (k : String) :
    (c.get now u ch th).2.cache k =
      if now - e.timestamp > c.ttl then
        (if k = ConversationCache.key u ch th then none else c.cache k)
      else c.cache k := by
  unfold ConversationCache.get
  rw [he]
  by_cases hx : now - e.timestamp > c.ttl <;> simp [hx]

/-- Helper: a `get` on a missing key returns absent and changes nothing. -/
theorem get_of_miss (c : ConversationCache) (now : Int)
    (u ch : String) (th : Option String)
    (he : c.cache (ConversationCache.key u ch th) = none) :
    c.get now u ch th = (none, c) := by
  unfold ConversationCache.get
  rw [he]

/-- C5: `truncate_text` leaves text of length at most the 3000-character cap
unchanged; longer text is cut to exactly the cap and ends with the whole
ellipsis marker `"..."` (the marker is appended after the cut, so it is
never split and fits within the cap). -/
theorem C5_truncate_exact_cap (text : String) :
    (truncateCap < text.length →
      (truncate_text text).length = truncateCap ∧
      "...".data <:+ (truncate_text text).data) ∧
    (text.length ≤ truncateCap → truncate_text text = text) := by
  constructor
  · intro h
    have hnle : ¬ text.length ≤ truncateCap := by omega
    unfold truncate_text
    rw [if_neg hnle]
    have hdots : ("..." : String).data.length = 3 := rfl
    constructor
    · show ((⟨text.data.take (truncateCap - 3)⟩ : String) ++ "...").data.length = truncateCap
      rw [String.data_append, List.length_append, List.length_take, hdots]
      have htl : truncateCap < text.data.length := h
      unfold truncateCap at htl ⊢
      omega
    · show "...".data <:+ ((⟨text.data.take (truncateCap - 3)⟩ : String) ++ "...").data
      rw [String.data_append]
      exact List.suffix_append _ _
  · intro h
    unfold truncate_text
    rw [if_pos h]

/-- Witness for C5 at a concrete 3001-character string. -/
theorem C5_truncate_exact_cap_witness :
    truncateCap < (String.mk (List.replicate 3001 'a')).length ∧
    ((truncate_text ⟨List.replicate 3001 'a'⟩).length = truncateCap ∧
     "...".data <:+ (truncate_text ⟨List.replicate 3001 'a'⟩).data) :=
  have hlen : truncateCap < (String.mk (List.replicate 3001 'a')).length := by
    show truncateCap < (List.replicate 3001 'a').length
    rw [List.length_replicate]
    decide
  ⟨hlen, (C5_truncate_exact_cap ⟨List.replicate 3001 'a'⟩).1 hlen⟩

/-- C2: storing a conversation handle and looking it up under the same
(user, channel, thread) key before TTL seconds have elapsed returns the
stored handle; once more than TTL seconds have elapsed with no intervening
store, the lookup returns absent. -/
theorem C2_cache_store_lookup_ttl (c : ConversationCache) (t0 t1 : Int)
    (u ch conv : String) (th : Option String) :
    (t1 - t0 < c.ttl →
      (((c.set t0 u ch conv th).get t1 u ch th).1 = some conv)) ∧
    (t1 - t0 > c.ttl →
      (((c.set t0 u ch conv th).get t1 u ch th).1 = none)) := by
  have hfound := get_fst_of_found (c.set t0 u ch conv th) t1 u ch th
    ⟨conv, t0⟩ (set_cache_at_key c t0 u ch conv th)
  rw [set_ttl] at hfound
  constructor
  · intro h
    rw [hfound, if_neg (by simp; omega)]
  · intro h
    rw [hfound, if_pos (by simpa using h)]

/-- Witness for C2 on an empty cache with TTL 3600: lookup 10 seconds after
the store returns the handle; lookup 3601 seconds after returns absent. -/
theorem C2_cache_store_lookup_ttl_witness :
    ((10 : Int) - 0 < (3600 : Int) ∧
      ((((ConversationCache.mk (fun _ => none) 3600).set 0 "u1" "c1" "cv1"
          none).get 10 "u1" "c1" none).1 = some "cv1")) ∧
    ((3601 : Int) - 0 > (3600 : Int) ∧
      ((((ConversationCache.mk (fun _ => none) 3600).set 0 "u1" "c1" "cv1"
          none).get 3601 "u1" "c1" none).1 = none)) :=
  ⟨⟨by decide,
    (C2_cache_store_lookup_ttl ⟨fun _ => none, 3600⟩ 0 10 "u1" "c1" "cv1" none).1
      (by decide)⟩,
   ⟨by decide,
    (C2_cache_store_lookup_ttl ⟨fun _ => none, 3600⟩ 0 3601 "u1" "c1" "cv1" none).2
      (by decide)⟩⟩

/-- C9: a `get` never rewrites any cache entry — after a `get`, every key
either holds exactly the entry (same handle, same timestamp) it held before
or holds nothing; and only `set` writes an entry, stamping it with the
current time. -/
theorem C9_get_never_touches_timestamps (c : ConversationCache) (now : Int)
    (u ch : String) (th : Option String) (k : String) (conv : String) :
    (((c.get now u ch th).2.cache k = c.cache k) ∨
     ((c.get now u ch th).2.cache k = none)) ∧
    ((c.set now u ch conv th).cache (ConversationCache.key u ch th)
       = some ⟨conv, now⟩) := by
  refine ⟨?_, set_cache_at_key c now u ch conv th⟩
  cases hc : c.cache (ConversationCache.key u ch th) with
  | none => left; rw [get_of_miss c now u ch th hc]
  | some entry =>
    rw [get_snd_of_found c now u ch th entry hc k]
    by_cases hexp : now - entry.timestamp > c.ttl
    · by_cases hk : k = ConversationCache.key u ch th
      · right; simp [hexp, hk]
      · left; simp [hexp, hk]
    · left; simp [hexp]

/-- C10: a `get` never returns a handle from an expired entry; a `get` that
finds its key expired deletes that entry as a side effect, and a `get`
leaves every other key of the cache untouched. -/
theorem C10_get_eviction_on_read (c : ConversationCache) (now : Int)
    (u ch : String) (th : Option String) :
    (∀ v, (c.get now u ch th).1 = some v →
       ∃ e, c.cache (ConversationCache.key u ch th) = some e ∧
            now - e.timestamp ≤ c.ttl ∧ v = e.conversation_id) ∧
    (∀ e, c.cache (ConversationCache.key u ch th) = some e →
       now - e.timestamp > c.ttl →
       (c.get now u ch th).1 = none ∧
       (c.get now u ch th).2.cache (ConversationCache.key u ch th) = none) ∧
    (∀ k, k ≠ ConversationCache.key u ch th →
       (c.get now u ch th).2.cache k = c.cache k) := by
  refine ⟨?_, ?_, ?_⟩
  · intro v hv
    cases hc : c.cache (ConversationCache.key u ch th) with
    | none => rw [get_of_miss c now u ch th hc] at hv; simp at hv
    | some entry =>
      rw [get_fst_of_found c now u ch th entry hc] at hv
      by_cases hexp : now - entry.timestamp > c.ttl
      · rw [if_pos hexp] at hv; simp at hv
      · rw [if_neg hexp] at hv
        simp at hv
        exact ⟨entry, rfl, by omega, hv.symm⟩
  · intro e he hexp
    constructor
    · rw [get_fst_of_found c now u ch th e he, if_pos hexp]
    · rw [get_snd_of_found c now u ch th e he, if_pos hexp]
      simp
  · intro k hk
    cases hc : c.cache (ConversationCache.key u ch th) with
    | none => rw [get_of_miss c now u ch th hc]
    | some entry =>
      rw [get_snd_of_found c now u ch th entry hc k]
      by_cases hexp : now - entry.timestamp > c.ttl
      · simp [hexp, hk]
      · simp [hexp]

/-- Witness for C10 on a cache whose only entry, under key `"u1:c1"`, is
3601 seconds old with TTL 3600: the lookup returns absent and the entry is
deleted. -/
theorem C10_get_eviction_on_read_witness :
    ((ConversationCache.mk
        (fun k => if k = "u1:c1" then some ⟨"cv1", 0⟩ else none) 3600).get
          3601 "u1" "c1" none).1 = none ∧
    ((ConversationCache.mk
        (fun k => if k = "u1:c1" then some ⟨"cv1", 0⟩ else none) 3600).get
          3601 "u1" "c1" none).2.cache "u1:c1" = none := by
  have h := (C10_get_eviction_on_read
      ⟨fun k => if k = "u1:c1" then some ⟨"cv1", 0⟩ else none, 3600⟩
      3601 "u1" "c1" none).2.1 ⟨"cv1", 0⟩ (by decide) (by decide)
  exact ⟨h.1, h.2⟩

/-- C7: category inference maps `"chart.png"` to image, `"report.pdf"` to
document and `"clip.mp4"` to video; a filename whose extension is in none
of the fallback tables and for which the MIME guess is absent is classified
custom; and inference is a pure function of its inputs (deterministic) for
both the filename-based and the MIME-based classifier. -/
theorem C7_file_category_inference :
    getFileTypeFromFilename "chart.png" = "image" ∧
    getFileTypeFromFilename "report.pdf" = "document" ∧
    getFileTypeFromFilename "clip.mp4" = "video" ∧
    (∀ fn : String, guessType fn = none →
       lastExt fn ∉ (["png", "jpg", "jpeg", "gif", "webp", "svg"] : List String) →
       lastExt fn ∉ (["mp3", "m4a", "wav", "webm", "amr"] : List String) →
       lastExt fn ∉ (["mp4", "mov", "mpeg", "mpga"] : List String) →
       lastExt fn ∉ (["txt", "md", "markdown", "pdf", "html", "xlsx", "xls",
                      "docx", "csv", "eml", "msg", "pptx", "ppt", "xml",
                      "epub"] : List String) →
       getFileTypeFromFilename fn = "custom") ∧
    (∀ fn mt : String,
       getFileTypeFromFilename fn = getFileTypeFromFilename fn ∧
       getFileTypeFromMime mt = getFileTypeFromMime mt) := by
  refine ⟨by decide, by decide, by decide, ?_, fun fn mt => ⟨rfl, rfl⟩⟩
  intro fn hguess h1 h2 h3 h4
  unfold getFileTypeFromFilename
  rw [hguess]
  unfold extFallbackType
  rw [if_neg (by simpa using h1), if_neg (by simpa using h2),
      if_neg (by simpa using h3), if_neg (by simpa using h4)]

/-- Witness for C7 at the extension-less unknown filename `"data.xyz"`. -/
theorem C7_file_category_inference_witness :
    getFileTypeFromFilename "data.xyz" = "custom" :=
  C7_file_category_inference.2.2.2.1 "data.xyz" (by decide) (by decide)
    (by decide) (by decide) (by decide)

/-- C6 counterexample: the oversized file `x.exe`
(99999999 bytes > the 15 MB default maximum) whose MIME type is not in the
default allow-list is rejected by the loop as *unsupported*, not as too
large — the size check (src/bot.py line 133) is never reached because the
type check (line 127) hits `continue` first. No network call is made. -/
theorem C6_counterexample :
    processFile defaultSupportedTypes defaultMaxFileSize true ⟨some "f1", none⟩
        ⟨"x.exe", "application/x-msdownload", "http://files/x.exe", 99999999⟩
      = (.unsupported, []) ∧
    (99999999 : Nat) > defaultMaxFileSize ∧
    FileOutcome.unsupported ≠ FileOutcome.tooLarge := by
  refine ⟨by decide, by decide, by decide⟩

/-- C6 amended: a file whose declared size exceeds the configured maximum
never causes a network call (no Slack download, no Dify upload); it is
rejected as too large when its MIME type passes the allow-list, and as
unsupported otherwise. -/
theorem C6_too_large_no_network (supported : List String) (maxFS : Nat)
    (dOk : Bool) (resp : UploadResponse) (f : FileInfo)
    (h : f.size > maxFS) :
    (processFile supported maxFS dOk resp f).2 = [] ∧
    (processFile supported maxFS dOk resp f).1 =
      (if isSupportedFileType supported f.mimetype then .tooLarge
       else .unsupported) := by
  unfold processFile
  by_cases hs : isSupportedFileType supported f.mimetype <;> simp [hs, h]

/-- Witness for C6 amended: an oversized PNG (supported type) is rejected
as too large with no network call. -/
theorem C6_too_large_no_network_witness :
    (99999999 : Nat) > defaultMaxFileSize ∧
    ((processFile defaultSupportedTypes defaultMaxFileSize true
        ⟨some "f1", none⟩ ⟨"big.png", "image/png", "http://files/big.png",
          99999999⟩).2 = [] ∧
     (processFile defaultSupportedTypes defaultMaxFileSize true
        ⟨some "f1", none⟩ ⟨"big.png", "image/png", "http://files/big.png",
          99999999⟩).1 =
       (if isSupportedFileType defaultSupportedTypes "image/png"
        then .tooLarge else .unsupported)) :=
  ⟨by decide,
   C6_too_large_no_network defaultSupportedTypes defaultMaxFileSize true
     ⟨some "f1", none⟩ ⟨"big.png", "image/png", "http://files/big.png", 99999999⟩
     (by decide)⟩

/-- C8 counterexample: `build_error_message` classifies by substring
matching, so an error whose raw text happens to coincide with a template is
delivered verbatim — the delivered text then does contain the raw error
text, refuting "never contains the raw backend/internal error text". -/
theorem C8_counterexample :
    build_error_message "Something went wrong on my end. Please try again later."
        = "Something went wrong on my end. Please try again later." ∧
    strContains
        (build_error_message
          "Something went wrong on my end. Please try again later.")
        "Something went wrong on my end. Please try again later." = true := by
  refine ⟨by decide, by decide⟩

/-- C8 amended: for every exception the user-facing reply is exactly one of
the five fixed templates (connectivity, timeout, rate-limited, bad-input,
generic-server-error), chosen from the error's classification and never
built from the error text itself (though a raw error text can coincide with
a template substring); and a failing turn — streaming or blocking — always
ends by posting that reply into the originating thread. -/
theorem C8_error_reply_is_template (err : String) (ev : SlackEvent)
    (pts : String) (processed : List (Int × SSEEvent))
    (htext : ev.text ≠ "") :
    build_error_message err ∈
      [msgConnection, msgTimeout, msgRateLimit, msgInvalidInput,
       msgServerError] ∧
    (processMessageStreaming ev pts (.error err processed)).getLast?
      = some (.say (build_error_message err) (resolveThread ev)) ∧
    (processMessageBlocking ev (.error err)).getLast?
      = some (.say (build_error_message err) (resolveThread ev)) := by
  refine ⟨?_, ?_, ?_⟩
  · unfold build_error_message
    simp only []
    split
    · simp
    · split
      · simp
      · split
        · simp
        · split <;> simp
  · unfold processMessageStreaming
    rw [if_neg htext]
    exact List.getLast?_concat _
  · unfold processMessageBlocking
    rw [if_neg htext]
    rfl

/-- Witness for C8 amended: a concrete rate-limit failure in a streaming
turn posts the rate-limit template into the thread. -/
theorem C8_error_reply_is_template_witness :
    (("hi" : String) ≠ "") ∧
    (build_error_message "rate limit exceeded" ∈
      [msgConnection, msgTimeout, msgRateLimit, msgInvalidInput,
       msgServerError] ∧
    (processMessageStreaming ⟨"U1", "C1", "111.222", none, "hi"⟩ "ph.1"
        (.error "rate limit exceeded" [])).getLast?
      = some (.say (build_error_message "rate limit exceeded")
          (resolveThread ⟨"U1", "C1", "111.222", none, "hi"⟩)) ∧
    (processMessageBlocking ⟨"U1", "C1", "111.222", none, "hi"⟩
        (.error "rate limit exceeded")).getLast?
      = some (.say (build_error_message "rate limit exceeded")
          (resolveThread ⟨"U1", "C1", "111.222", none, "hi"⟩))) :=
  ⟨by decide,
   C8_error_reply_is_template "rate limit exceeded"
     ⟨"U1", "C1", "111.222", none, "hi"⟩ "ph.1" [] (by decide)⟩

/-- Helper: splitting a character list at a colon is unique when the parts
left of the colon are colon-free. -/
theorem append_colon_cancel {l1 l2 m1 m2 : List Char}
    (h1 : (':' : Char) ∉ l1) (h2 : (':' : Char) ∉ m1)
    (h : l1 ++ ':' :: l2 = m1 ++ ':' :: m2) : l1 = m1 ∧ l2 = m2 := by
  induction l1 generalizing m1 with
  | nil =>
    cases m1 with
    | nil => simpa using h
    | cons b bs =>
      simp only [List.nil_append, List.cons_append, List.cons.injEq] at h
      refine absurd ?_ h2
      rw [h.1]
      exact List.mem_cons_self b bs
  | cons a as ih =>
    cases m1 with
    | nil =>
      simp only [List.nil_append, List.cons_append, List.cons.injEq] at h
      refine absurd ?_ h1
      rw [← h.1]
      exact List.mem_cons_self a as
    | cons b bs =>
      simp only [List.cons_append, List.cons.injEq] at h
      obtain ⟨hab, hrest⟩ := h
      have h1' : (':' : Char) ∉ as := fun hm => h1 (List.mem_cons_of_mem a hm)
      have h2' : (':' : Char) ∉ bs := fun hm => h2 (List.mem_cons_of_mem b hm)
      obtain ⟨he, ht⟩ := ih h1' h2' hrest
      exact ⟨by rw [hab, he], ht⟩

/-- Helper: the characters of a channel-level key. -/
theorem key_none_data (u c : String) :
    (ConversationCache.key u c none).data = u.data ++ ':' :: c.data := by
  show (u ++ ":" ++ c).data = u.data ++ ':' :: c.data
  rw [String.data_append, String.data_append]
  simp

/-- Helper: the characters of a thread-level key. -/
theorem key_some_data (u c t : String) (ht : t ≠ "") :
    (ConversationCache.key u c (some t)).data
      = u.data ++ ':' :: (c.data ++ ':' :: t.data) := by
  show (if t = "" then u ++ ":" ++ c else u ++ ":" ++ c ++ ":" ++ t).data = _
  rw [if_neg ht, String.data_append, String.data_append, String.data_append]
  simp

/-- C1 counterexample: the key is built by joining the components with
`":"`, so a colon inside a component lets two different
(user, channel, thread) triples collide — `("u", "c:t", no thread)` and
`("u", "c", thread "t")` both yield the key `"u:c:t"` although their
channels and thread markers differ, refuting the claimed "iff". -/
theorem C1_counterexample :
    ConversationCache.key "u" "c:t" none
        = ConversationCache.key "u" "c" (some "t") ∧
    ¬ (("u" : String) = "u" ∧ ("c:t" : String) = "c" ∧
       (none : Option String) = some "t") := by
  refine ⟨by decide, by decide⟩

/-- C1 amended: when user and channel ids contain no colon and thread
markers, when present, are nonempty, two messages get the same session
cache key iff user, channel and thread marker all match exactly (both
absent counting as equal; an absent thread yields the channel-level key,
which never collides with a thread-level one). -/
theorem C1_key_match_iff (u1 c1 u2 c2 : String) (t1 t2 : Option String)
    (hu1 : (':' : Char) ∉ u1.data) (hc1 : (':' : Char) ∉ c1.data)
    (hu2 : (':' : Char) ∉ u2.data) (hc2 : (':' : Char) ∉ c2.data)
    (ht1 : ∀ s, t1 = some s → s ≠ "") (ht2 : ∀ s, t2 = some s → s ≠ "") :
    (ConversationCache.key u1 c1 t1 = ConversationCache.key u2 c2 t2) ↔
      (u1 = u2 ∧ c1 = c2 ∧ t1 = t2) := by
  constructor
  · intro h
    have hd : (ConversationCache.key u1 c1 t1).data
        = (ConversationCache.key u2 c2 t2).data := by rw [h]
    cases t1 with
    | none =>
      cases t2 with
      | none =>
        rw [key_none_data, key_none_data] at hd
        obtain ⟨hu, hc⟩ := append_colon_cancel hu1 hu2 hd
        exact ⟨String.ext hu, String.ext hc, rfl⟩
      | some s2 =>
        rw [key_none_data, key_some_data u2 c2 s2 (ht2 s2 rfl)] at hd
        obtain ⟨hu, hc⟩ := append_colon_cancel hu1 hu2 hd
        refine absurd ?_ hc1
        rw [hc]
        exact List.mem_append_right _ (List.mem_cons_self _ _)
    | some s1 =>
      cases t2 with
      | none =>
        rw [key_some_data u1 c1 s1 (ht1 s1 rfl), key_none_data] at hd
        obtain ⟨hu, hc⟩ := append_colon_cancel hu1 hu2 hd
        refine absurd ?_ hc2
        rw [← hc]
        exact List.mem_append_right _ (List.mem_cons_self _ _)
      | some s2 =>
        rw [key_some_data u1 c1 s1 (ht1 s1 rfl),
            key_some_data u2 c2 s2 (ht2 s2 rfl)] at hd
        obtain ⟨hu, hrest⟩ := append_colon_cancel hu1 hu2 hd
        obtain ⟨hc, hs⟩ := append_colon_cancel hc1 hc2 hrest
        exact ⟨String.ext hu, String.ext hc, by rw [String.ext hs]⟩
  · rintro ⟨h1, h2, h3⟩
    rw [h1, h2, h3]

/-- Witness for C1 amended at concrete colon-free Slack-style ids. -/
theorem C1_key_match_iff_witness :
    ConversationCache.key "U1" "C9" (some "42.1")
        = ConversationCache.key "U1" "C9" (some "42.1") ↔
      (("U1" : String) = "U1" ∧ ("C9" : String) = "C9" ∧
       (some "42.1" : Option String) = some "42.1") :=
  C1_key_match_iff "U1" "C9" "U1" "C9" (some "42.1") (some "42.1")
    (by decide) (by decide) (by decide) (by decide)
    (fun s h => by cases h; decide) (fun s h => by cases h; decide)

/-- C4 counterexample: a streaming turn whose Dify call raises before any
chunk arrives issues no `chat_update` at all — the placeholder keeps its
"thinking" text and the error is delivered as a *new* message posted into
the thread, refuting "the placeholder message itself is updated with an
error-appropriate message". -/
theorem C4_counterexample :
    (processMessageStreaming ⟨"U1", "C1", "111.222", none, "hi"⟩ "ph.1"
        (.error "boom" [])).all
      (fun a => match a with
        | .chatUpdate _ _ => false
        | _ => true) = true ∧
    processMessageStreaming ⟨"U1", "C1", "111.222", none, "hi"⟩ "ph.1"
        (.error "boom" [])
      = [.say "🤔 Thinking..." "111.222", .say msgServerError "111.222"] := by
  refine ⟨by decide, by decide⟩

/-- C4 amended: when a streaming turn errors after the placeholder is
posted, the turn still ends by delivering an error-appropriate message, but
as a new `say`-posted message in the originating thread; the placeholder is
not edited by the error handler — every `chat_update` on it in the turn's
trace is one of the streaming-callback updates. -/
theorem C4_error_reply_not_on_placeholder (ev : SlackEvent) (pts : String)
    (err : String) (processed : List (Int × SSEEvent))
    (htext : ev.text ≠ "") :
    ((processMessageStreaming ev pts (.error err processed)).getLast?
       = some (.say (build_error_message err) (resolveThread ev))) ∧
    (∀ txt, SlackAction.chatUpdate pts txt ∈
        processMessageStreaming ev pts (.error err processed) →
      ∃ u ∈ (handleStream processed "" initCallbackState).callback.updates,
        txt = u.text) := by
  constructor
  · unfold processMessageStreaming
    rw [if_neg htext]
    exact List.getLast?_concat _
  · intro txt hmem
    unfold processMessageStreaming at hmem
    rw [if_neg htext] at hmem
    simp only [List.mem_append, List.mem_cons, List.mem_singleton,
      List.mem_map, List.not_mem_nil, or_false] at hmem
    rcases hmem with ((hmem | ⟨u, hu, hEq⟩) | hmem)
    · exact absurd hmem (by simp)
    · refine ⟨u, hu, ?_⟩
      injection hEq with _ h
      exact h.symm
    · exact absurd hmem (by simp)

/-- Witness for C4 amended: a concrete errored turn that had processed one
chunk. -/
theorem C4_error_reply_not_on_placeholder_witness :
    (("hi" : String) ≠ "") ∧
    (((processMessageStreaming ⟨"U1", "C1", "111.222", none, "hi"⟩ "ph.1"
        (.error "boom" [(5, .message "He")])).getLast?
       = some (.say (build_error_message "boom")
           (resolveThread ⟨"U1", "C1", "111.222", none, "hi"⟩))) ∧
    (∀ txt, SlackAction.chatUpdate "ph.1" txt ∈
        processMessageStreaming ⟨"U1", "C1", "111.222", none, "hi"⟩ "ph.1"
          (.error "boom" [(5, .message "He")]) →
      ∃ u ∈ (handleStream [(5, .message "He")] ""
          initCallbackState).callback.updates,
        txt = u.text)) :=
  ⟨by decide,
   C4_error_reply_not_on_placeholder ⟨"U1", "C1", "111.222", none, "hi"⟩
     "ph.1" "boom" [(5, .message "He")] (by decide)⟩

/-- Throttle discipline between two consecutive placeholder updates: the
later one is the final update (which is exempt from the throttle) or at
least `update_interval` elapsed since the earlier one. -/
def gapOK (a b : SlackUpdate) : Prop :=
  b.final = true ∨ updateInterval ≤ b.time - a.time

/-- The part of the stream loop that precedes `message_end`: fold the
`message` events through the accumulator and the callback. -/
def processMsgs : List (Int × String) → String → CallbackState →
    String × CallbackState
  | [], acc, cs => (acc, cs)
  | (t, chunk) :: rest, acc, cs =>
      processMsgs rest (acc ++ chunk) (update_callback t (acc ++ chunk) false cs)

/-- Invariant of the callback state while only intermediate updates have
been emitted: consecutive updates respect the throttle, none is final, and
`last_update_time` is at least the last emitted update's time. -/
def cbInv (cs : CallbackState) : Prop :=
  List.Chain' gapOK cs.updates ∧
  (∀ u ∈ cs.updates, u.final = false) ∧
  (∀ u, cs.updates.getLast? = some u → u.time ≤ cs.lastUpdateTime)

/-- Helper: one intermediate callback invocation preserves the invariant
and only appends to the update trace. -/
theorem update_callback_inv (now : Int) (text : String) (cs : CallbackState)
    (h : cbInv cs) :
    cbInv (update_callback now text false cs) ∧
    ∃ extra, (update_callback now text false cs).updates
      = cs.updates ++ extra := by
  obtain ⟨hchain, hfinal, hlast⟩ := h
  unfold update_callback
  simp only [Bool.false_eq_true, if_false]
  by_cases hc : updateInterval ≤ now - cs.lastUpdateTime
  · rw [if_pos hc]
    refine ⟨⟨?_, ?_, ?_⟩, [⟨now, truncate_text text ++ " ⏳", false⟩], rfl⟩
    · rw [List.chain'_append]
      refine ⟨hchain, List.chain'_singleton _, ?_⟩
      intro x hx y hy
      simp only [List.head?_cons, Option.mem_def, Option.some.injEq] at hy
      right
      rw [← hy]
      have hxt := hlast x hx
      simp only []
      omega
    · intro u hu
      rcases List.mem_append.1 hu with hu | hu
      · exact hfinal u hu
      · simp only [List.mem_singleton] at hu
        rw [hu]
    · intro u hu
      rw [List.getLast?_concat] at hu
      injection hu with hu
      rw [← hu]
  · rw [if_neg hc]
    exact ⟨⟨hchain, hfinal, hlast⟩, [], by simp⟩

/-- Helper: the message-only prefix preserves the callback invariant. -/
theorem processMsgs_inv (msgs : List (Int × String)) (acc : String)
    (cs : CallbackState) (h : cbInv cs) :
    cbInv (processMsgs msgs acc cs).2 := by
  induction msgs generalizing acc cs with
  | nil => exact h
  | cons p rest ih =>
    obtain ⟨t, chunk⟩ := p
    exact ih (acc ++ chunk) _ (update_callback_inv t (acc ++ chunk) cs h).1

/-- Helper: the accumulated `full_answer` after the message-only prefix. -/
theorem processMsgs_answer (msgs : List (Int × String)) (acc : String)
    (cs : CallbackState) :
    (processMsgs msgs acc cs).1 = msgs.foldl (fun a p => a ++ p.2) acc := by
  induction msgs generalizing acc cs with
  | nil => rfl
  | cons p rest ih =>
    obtain ⟨t, chunk⟩ := p
    simp only [processMsgs, List.foldl_cons]
    exact ih (acc ++ chunk) _

/-- Helper: a stream of `message` events closed by one `message_end`
decomposes into the message fold followed by one final callback call. -/
theorem handleStream_split (msgs : List (Int × String)) (tEnd : Int)
    (acc : String) (cs : CallbackState) :
    handleStream ((msgs.map fun p => (p.1, SSEEvent.message p.2))
        ++ [(tEnd, SSEEvent.messageEnd)]) acc cs
      = ⟨(processMsgs msgs acc cs).1,
         update_callback tEnd (processMsgs msgs acc cs).1 true
           (processMsgs msgs acc cs).2⟩ := by
  induction msgs generalizing acc cs with
  | nil => rfl
  | cons p rest ih =>
    obtain ⟨t, chunk⟩ := p
    simp only [List.map_cons, List.cons_append, handleStream, processMsgs]
    exact ih (acc ++ chunk) _

/-- C3: in a streaming turn whose event stream is any sequence of partial
chunks closed by one end-of-stream signal, consecutive placeholder updates
are at least the 1-second throttle interval apart (the end-of-stream update
being exempt); and the turn always ends with exactly one final update,
carrying the rendering of the whole accumulated answer with no trailing
`" ⏳"` thinking decoration appended, all earlier updates being
intermediate ones. -/
theorem C3_streaming_throttle_and_final (msgs : List (Int × String))
    (tEnd : Int) :
    (∃ pre,
       (handleStream ((msgs.map fun p => (p.1, SSEEvent.message p.2))
           ++ [(tEnd, SSEEvent.messageEnd)]) "" initCallbackState).callback.updates
         = pre ++ [⟨tEnd,
             truncate_text ((handleStream
               ((msgs.map fun p => (p.1, SSEEvent.message p.2))
                 ++ [(tEnd, SSEEvent.messageEnd)]) "" initCallbackState).fullAnswer),
             true⟩] ∧
       ∀ u ∈ pre, u.final = false) ∧
    List.Chain' gapOK
      (handleStream ((msgs.map fun p => (p.1, SSEEvent.message p.2))
        ++ [(tEnd, SSEEvent.messageEnd)]) "" initCallbackState).callback.updates ∧
    (handleStream ((msgs.map fun p => (p.1, SSEEvent.message p.2))
        ++ [(tEnd, SSEEvent.messageEnd)]) "" initCallbackState).fullAnswer
      = msgs.foldl (fun a p => a ++ p.2) "" := by
  have hinv0 : cbInv initCallbackState := by
    refine ⟨List.chain'_nil, ?_, ?_⟩ <;> intro u hu <;>
      simp [initCallbackState] at hu
  have hmid := processMsgs_inv msgs "" initCallbackState hinv0
  rw [handleStream_split]
  simp only [update_callback, if_pos]
  refine ⟨⟨(processMsgs msgs "" initCallbackState).2.updates, rfl, hmid.2.1⟩,
    ?_, processMsgs_answer msgs "" initCallbackState⟩
  rw [List.chain'_append]
  refine ⟨hmid.1, List.chain'_singleton _, ?_⟩
  intro x hx y hy
  simp only [List.head?_cons, Option.mem_def, Option.some.injEq] at hy
  left
  rw [← hy]

end DifySlackBot